import Mathlib

set_option maxHeartbeats 1000000

noncomputable section

/-! Shallow embedding of the area-conservation mesh force computations of
the repository: `AreaConservationMeshForceCompute` (whole-mesh aggregate
area constraint), `TriangleAreaConservationMeshForceCompute` (per-triangle
area constraint) and the error-check epilogue of
`AreaConservationMeshForceComputeGPU::computeForces`.  HOOMD `Scalar`
values are modelled by real numbers. -/

/-- Three-component vector of reals, modelling HOOMD's `Scalar3`. -/
structure Vec3 where
  x : ℝ
  y : ℝ
  z : ℝ

namespace Vec3

@[ext]
theorem ext3 {v w : Vec3} (hx : v.x = w.x) (hy : v.y = w.y) (hz : v.z = w.z) : v = w := by
  cases v; cases w; simp_all

/-- Componentwise addition. -/
def add (v w : Vec3) : Vec3 := ⟨v.x + w.x, v.y + w.y, v.z + w.z⟩

/-- Componentwise subtraction. -/
def sub (v w : Vec3) : Vec3 := ⟨v.x - w.x, v.y - w.y, v.z - w.z⟩

/-- Componentwise negation. -/
def neg (v : Vec3) : Vec3 := ⟨-v.x, -v.y, -v.z⟩

/-- Scalar times vector. -/
def smul (r : ℝ) (v : Vec3) : Vec3 := ⟨r * v.x, r * v.y, r * v.z⟩

/-- Vector divided by scalar, as in `nab = dab / rab`. -/
def sdiv (v : Vec3) (r : ℝ) : Vec3 := ⟨v.x / r, v.y / r, v.z / r⟩

/-- Dot product. -/
def dot (v w : Vec3) : ℝ := v.x * w.x + v.y * w.y + v.z * w.z

/-- Zero vector. -/
def zero : Vec3 := ⟨0, 0, 0⟩

@[simp] theorem add_x (v w : Vec3) : (add v w).x = v.x + w.x := rfl
@[simp] theorem add_y (v w : Vec3) : (add v w).y = v.y + w.y := rfl
@[simp] theorem add_z (v w : Vec3) : (add v w).z = v.z + w.z := rfl
@[simp] theorem sub_x (v w : Vec3) : (sub v w).x = v.x - w.x := rfl
@[simp] theorem sub_y (v w : Vec3) : (sub v w).y = v.y - w.y := rfl
@[simp] theorem sub_z (v w : Vec3) : (sub v w).z = v.z - w.z := rfl
@[simp] theorem neg_x (v : Vec3) : (neg v).x = -v.x := rfl
@[simp] theorem neg_y (v : Vec3) : (neg v).y = -v.y := rfl
@[simp] theorem neg_z (v : Vec3) : (neg v).z = -v.z := rfl
@[simp] theorem smul_x (r : ℝ) (v : Vec3) : (smul r v).x = r * v.x := rfl
@[simp] theorem smul_y (r : ℝ) (v : Vec3) : (smul r v).y = r * v.y := rfl
@[simp] theorem smul_z (r : ℝ) (v : Vec3) : (smul r v).z = r * v.z := rfl
@[simp] theorem sdiv_x (v : Vec3) (r : ℝ) : (sdiv v r).x = v.x / r := rfl
@[simp] theorem sdiv_y (v : Vec3) (r : ℝ) : (sdiv v r).y = v.y / r := rfl
@[simp] theorem sdiv_z (v : Vec3) (r : ℝ) : (sdiv v r).z = v.z / r := rfl
@[simp] theorem zero_x : (zero).x = 0 := rfl
@[simp] theorem zero_y : (zero).y = 0 := rfl
@[simp] theorem zero_z : (zero).z = 0 := rfl

end Vec3

/-- Edge length `rab = sqrt(dot(dab, dab))`. -/
def edgeR (d : Vec3) : ℝ := Real.sqrt (Vec3.dot d d)

/-- Unit edge vector `nab = dab / rab`. -/
def edgeN (d : Vec3) : Vec3 := Vec3.sdiv d (edgeR d)

/-- The clamping of the raw cosine to `[-1, 1]`, translated from the two
sequential `if` statements of the source. -/
def clampCos (c : ℝ) : ℝ :=
  let c1 := if c > 1 then 1 else c
  if c1 < -1 then -1 else c1

/-- `c_baac`: clamped cosine of the angle between the two edges. -/
def cosC (dab dac : Vec3) : ℝ := clampCos (Vec3.dot (edgeN dab) (edgeN dac))

/-- `s_baac = sqrt(1 - c_baac^2)`. -/
def sinS (dab dac : Vec3) : ℝ := Real.sqrt (1 - cosC dab dac * cosC dab dac)

/-- `inv_s_baac = 1 / s_baac`. -/
def invS (dab dac : Vec3) : ℝ := 1 / sinS dab dac

/-- `dc_drab = -nac / rab + c_baac / rab * nab`. -/
def dcDrab (dab dac : Vec3) : Vec3 :=
  Vec3.add (Vec3.sdiv (Vec3.neg (edgeN dac)) (edgeR dab))
    (Vec3.smul (cosC dab dac / edgeR dab) (edgeN dab))

/-- `dc_drac = -nab / rac + c_baac / rac * nac`. -/
def dcDrac (dab dac : Vec3) : Vec3 :=
  Vec3.add (Vec3.sdiv (Vec3.neg (edgeN dab)) (edgeR dac))
    (Vec3.smul (cosC dab dac / edgeR dac) (edgeN dac))

/-- `ds_drab = -c_baac * inv_s_baac * dc_drab`. -/
def dsDrab (dab dac : Vec3) : Vec3 :=
  Vec3.smul (-(cosC dab dac) * invS dab dac) (dcDrab dab dac)

/-- `ds_drac = -c_baac * inv_s_baac * dc_drac`. -/
def dsDrac (dab dac : Vec3) : Vec3 :=
  Vec3.smul (-(cosC dab dac) * invS dab dac) (dcDrac dab dac)

/-- `Fab = prefactor * (-nab * rac * s_baac + ds_drab * rab * rac)`. -/
def forceFab (pref : ℝ) (dab dac : Vec3) : Vec3 :=
  Vec3.smul pref (Vec3.add (Vec3.smul (edgeR dac * sinS dab dac) (Vec3.neg (edgeN dab)))
    (Vec3.smul (edgeR dab * edgeR dac) (dsDrab dab dac)))

/-- `Fac = prefactor * (-nac * rab * s_baac + ds_drac * rab * rac)`. -/
def forceFac (pref : ℝ) (dab dac : Vec3) : Vec3 :=
  Vec3.smul pref (Vec3.add (Vec3.smul (edgeR dab * sinS dab dac) (Vec3.neg (edgeN dac)))
    (Vec3.smul (edgeR dab * edgeR dac) (dsDrac dab dac)))

/-- Triangle area `rab * rac * s_baac / 2`. -/
def fullArea (dab dac : Vec3) : ℝ := edgeR dab * edgeR dac * sinS dab dac / 2

/-- A mesh triangle: three particle tags and a type id. -/
structure MeshTriangle where
  tagA : ℕ
  tagB : ℕ
  tagC : ℕ
  ttype : ℕ

/-- The particle-data collaborators consumed by the force computes:
positions, the tag-to-local-index map `h_rtag`, the owned-particle count
`getN()`, and the box minimum-image function. -/
structure ParticleData where
  pos : ℕ → Vec3
  rtag : ℕ → ℕ
  numOwned : ℕ
  minImage : Vec3 → Vec3

/-- Evaluator edge `dab = minImage(pos[a] - pos[b])`. -/
def triDab (pd : ParticleData) (tri : MeshTriangle) : Vec3 :=
  pd.minImage (Vec3.sub (pd.pos (pd.rtag tri.tagA)) (pd.pos (pd.rtag tri.tagB)))

/-- Evaluator edge `dac = minImage(pos[a] - pos[c])`. -/
def triDac (pd : ParticleData) (tri : MeshTriangle) : Vec3 :=
  pd.minImage (Vec3.sub (pd.pos (pd.rtag tri.tagA)) (pd.pos (pd.rtag tri.tagC)))

/-- Aggregator edge `dab = minImage(pos[b] - pos[a])` (the sign convention
of `precomputeParameter`). -/
def preDab (pd : ParticleData) (tri : MeshTriangle) : Vec3 :=
  pd.minImage (Vec3.sub (pd.pos (pd.rtag tri.tagB)) (pd.pos (pd.rtag tri.tagA)))

/-- Aggregator edge `dac = minImage(pos[c] - pos[a])`. -/
def preDac (pd : ParticleData) (tri : MeshTriangle) : Vec3 :=
  pd.minImage (Vec3.sub (pd.pos (pd.rtag tri.tagC)) (pd.pos (pd.rtag tri.tagA)))

/-- `area_tri` of one triangle as computed in `precomputeParameter`. -/
def preFullArea (pd : ParticleData) (tri : MeshTriangle) : ℝ :=
  fullArea (preDab pd tri) (preDac pd tri)

/-- The effective triangle type: collapsed to 0 when `ignore_type` is set. -/
def effType (ign : Bool) (tri : MeshTriangle) : ℕ := if ign then 0 else tri.ttype

/-- Number of triangles of a given raw type (`getPerTypeSize()`). -/
def countType (tris : List MeshTriangle) (t : ℕ) : ℕ :=
  (tris.filter (fun tr => tr.ttype == t)).length

/-- The value the loop variable `triN` has when triangle of raw type `t`
is processed: the total mesh size `getSize()` when `ignore_type` (the
initial value, never reassigned), else `h_pts[t]`. -/
def triNof (ign : Bool) (tris : List MeshTriangle) (t : ℕ) : ℕ :=
  if ign then tris.length else countType tris t

/-- `global_area[key] += val`, the accumulation step of the area loops. -/
def typeAccum (key : MeshTriangle → ℕ) (val : MeshTriangle → ℝ) (g : ℕ → ℝ)
    (tri : MeshTriangle) : ℕ → ℝ :=
  fun s => if s = key tri then g s + val tri else g s

/-- `precomputeParameter` in the non-distributed branch: every triangle
adds its full area to its (effective) type's slot. -/
def acAreaComputed (pd : ParticleData) (ign : Bool) (tris : List MeshTriangle) : ℕ → ℝ :=
  tris.foldl (typeAccum (effType ign) (preFullArea pd)) (fun _ => 0)

/-- One triangle's contribution to the rank-local area sum in the
distributed branch of `precomputeParameter`: `area_tri /= 3` and one
third is added per locally owned vertex. -/
def distContrib (pd : ParticleData) (owns : ℕ → Bool) (tri : MeshTriangle) : ℝ :=
  (if owns (pd.rtag tri.tagA) then preFullArea pd tri / 3 else 0)
    + (if owns (pd.rtag tri.tagB) then preFullArea pd tri / 3 else 0)
    + (if owns (pd.rtag tri.tagC) then preFullArea pd tri / 3 else 0)

/-- Rank-local per-type area of the distributed branch of
`precomputeParameter`, before the sum-reduction. -/
def acAreaDistLocal (pd : ParticleData) (ign : Bool) (owns : ℕ → Bool)
    (tris : List MeshTriangle) : ℕ → ℝ :=
  tris.foldl (typeAccum (effType ign) (distContrib pd owns)) (fun _ => 0)

/-- Per-particle force, energy and virial accumulators. -/
structure Buffers where
  force : ℕ → Vec3
  energy : ℕ → ℝ
  virial : ℕ → Fin 6 → ℝ

/-- The zeroed buffers produced by the `memset` calls at the start of
`computeForces`. -/
def zeroBuffers : Buffers := ⟨fun _ => Vec3.zero, fun _ => 0, fun _ _ => 0⟩

/-- The six virial components `1/2 * d_i * F_j` written for the two
non-shared vertices. -/
def pairVirial (d F : Vec3) : Fin 6 → ℝ := fun k =>
  if k = 0 then 1 / 2 * (d.x * F.x)
  else if k = 1 then 1 / 2 * (d.y * F.x)
  else if k = 2 then 1 / 2 * (d.z * F.x)
  else if k = 3 then 1 / 2 * (d.y * F.y)
  else if k = 4 then 1 / 2 * (d.z * F.y)
  else 1 / 2 * (d.z * F.z)

/-- The six virial components written for the shared vertex `a`:
`1/2 * (dab_i * Fab_j + dac_i * Fac_j)`. -/
def pairVirial2 (d1 F1 d2 F2 : Vec3) : Fin 6 → ℝ := fun k =>
  if k = 0 then 1 / 2 * (d1.x * F1.x + d2.x * F2.x)
  else if k = 1 then 1 / 2 * (d1.y * F1.x + d2.y * F2.x)
  else if k = 2 then 1 / 2 * (d1.z * F1.x + d2.z * F2.x)
  else if k = 3 then 1 / 2 * (d1.y * F1.y + d2.y * F2.y)
  else if k = 4 then 1 / 2 * (d1.z * F1.y + d2.z * F2.y)
  else 1 / 2 * (d1.z * F1.z + d2.z * F2.z)

/-- One guarded accumulation into the force/energy/virial buffers:
performed only when the local index is owned (`i < getN()`). -/
def bumpForce (b : Buffers) (n i : ℕ) (F : Vec3) (e : ℝ) (vir : Fin 6 → ℝ) : Buffers :=
  if i < n then
    { force := fun j => if j = i then Vec3.add (b.force j) F else b.force j
      energy := fun j => if j = i then b.energy j + e else b.energy j
      virial := fun j => if j = i then fun k => b.virial j k + vir k else b.virial j }
  else b

/-- State of `AreaConservationMeshForceCompute`: per-type `m_K`, `m_A0`,
`m_area` and the `ignore_type` flag. -/
structure ACState where
  K : ℕ → ℝ
  A0 : ℕ → ℝ
  area : ℕ → ℝ
  ignoreType : Bool

/-- State of `TriangleAreaConservationMeshForceCompute`: per-type `m_K`,
`m_A0` and `m_area`. -/
structure TACState where
  K : ℕ → ℝ
  A0 : ℕ → ℝ
  area : ℕ → ℝ

/-- The per-vertex energy value written by the whole-mesh variant:
`K * AreaDiff^2 / (6 * A0 * triN)`. -/
def acEnergyPerVertex (st : ACState) (tris0 : List MeshTriangle) (tri : MeshTriangle) : ℝ :=
  st.K (effType st.ignoreType tri)
      * (st.area (effType st.ignoreType tri) - st.A0 (effType st.ignoreType tri))
      * (st.area (effType st.ignoreType tri) - st.A0 (effType st.ignoreType tri))
    / (6 * st.A0 (effType st.ignoreType tri)
      * (triNof st.ignoreType tris0 tri.ttype : ℝ))

/-- The force prefactor of the whole-mesh variant:
`K / A0 * (area - A0) / 2`. -/
def acPref (st : ACState) (t : ℕ) : ℝ := st.K t / st.A0 t * (st.area t - st.A0 t) / 2

/-- One iteration of the triangle loop of
`AreaConservationMeshForceCompute::computeForces`. -/
def acStep (pd : ParticleData) (st : ACState) (tris0 : List MeshTriangle) (cv : Bool)
    (b : Buffers) (tri : MeshTriangle) : Buffers :=
  let dab := triDab pd tri
  let dac := triDac pd tri
  let e := acEnergyPerVertex st tris0 tri
  let Fab := forceFab (acPref st (effType st.ignoreType tri)) dab dac
  let Fac := forceFac (acPref st (effType st.ignoreType tri)) dab dac
  let b1 := bumpForce b pd.numOwned (pd.rtag tri.tagA) (Vec3.add Fab Fac) e
    (if cv then pairVirial2 dab Fab dac Fac else fun _ => 0)
  let b2 := bumpForce b1 pd.numOwned (pd.rtag tri.tagB) (Vec3.neg Fab) e
    (if cv then pairVirial dab Fab else fun _ => 0)
  bumpForce b2 pd.numOwned (pd.rtag tri.tagC) (Vec3.neg Fac) e
    (if cv then pairVirial dac Fac else fun _ => 0)

/-- The state after `precomputeParameter`: `m_area` freshly recomputed
from the current positions and topology. -/
def acPrecomputed (pd : ParticleData) (st : ACState) (tris : List MeshTriangle) : ACState :=
  { st with area := acAreaComputed pd st.ignoreType tris }

/-- `AreaConservationMeshForceCompute::computeForces` on one rank:
precompute the aggregate areas, zero the buffers, then run the triangle
loop. -/
def acComputeForces (pd : ParticleData) (st : ACState) (tris : List MeshTriangle)
    (cv : Bool) : Buffers × ACState :=
  (tris.foldl (acStep pd (acPrecomputed pd st tris) tris cv) zeroBuffers,
    acPrecomputed pd st tris)

/-- `tri_area` of the per-triangle variant: one third of the triangle's
area, `rab * rac * s_baac / 6`. -/
def tacTriArea (pd : ParticleData) (tri : MeshTriangle) : ℝ :=
  edgeR (triDab pd tri) * edgeR (triDac pd tri) * sinS (triDab pd tri) (triDac pd tri) / 6

/-- The full area of a triangle, from the evaluator's edge vectors. -/
def tacFullArea (pd : ParticleData) (tri : MeshTriangle) : ℝ :=
  fullArea (triDab pd tri) (triDac pd tri)

/-- `global_area[t] += v` guarded by local ownership of index `i`. -/
def guardAccum (n i : ℕ) (g : ℕ → ℝ) (t : ℕ) (v : ℝ) : ℕ → ℝ :=
  fun s => if i < n ∧ s = t then g s + v else g s

/-- One iteration of the triangle loop of
`TriangleAreaConservationMeshForceCompute::computeForces`, acting on the
force buffers and the running `global_area` vector. -/
def tacStep (pd : ParticleData) (st : TACState) (cv : Bool)
    (acc : Buffers × (ℕ → ℝ)) (tri : MeshTriangle) : Buffers × (ℕ → ℝ) :=
  let dab := triDab pd tri
  let dac := triDac pd tri
  let At := st.A0 tri.ttype
  let triArea := tacTriArea pd tri
  let Ut := 3 * triArea - At
  let eV := st.K tri.ttype / (6 * At) * Ut * Ut
  let Fab := forceFab (st.K tri.ttype / (2 * At) * Ut) dab dac
  let Fac := forceFac (st.K tri.ttype / (2 * At) * Ut) dab dac
  let b1 := bumpForce acc.1 pd.numOwned (pd.rtag tri.tagA) (Vec3.add Fab Fac) eV
    (if cv then pairVirial2 dab Fab dac Fac else fun _ => 0)
  let g1 := guardAccum pd.numOwned (pd.rtag tri.tagA) acc.2 tri.ttype triArea
  let b2 := bumpForce b1 pd.numOwned (pd.rtag tri.tagB) (Vec3.neg Fab) eV
    (if cv then pairVirial dab Fab else fun _ => 0)
  let g2 := guardAccum pd.numOwned (pd.rtag tri.tagB) g1 tri.ttype triArea
  let b3 := bumpForce b2 pd.numOwned (pd.rtag tri.tagC) (Vec3.neg Fac) eV
    (if cv then pairVirial dac Fac else fun _ => 0)
  (b3, guardAccum pd.numOwned (pd.rtag tri.tagC) g2 tri.ttype triArea)

/-- `TriangleAreaConservationMeshForceCompute::computeForces` on one
rank: zero the buffers and the `global_area` vector, run the triangle
loop, then commit `global_area` into `m_area`. -/
def tacComputeForces (pd : ParticleData) (st : TACState) (tris : List MeshTriangle)
    (cv : Bool) : Buffers × TACState :=
  let r := tris.foldl (tacStep pd st cv) (zeroBuffers, fun _ => 0)
  (r.1, { st with area := r.2 })

/-- The two configuration warnings `setParams` can emit. -/
inductive MeshWarning
  | kNonPositive
  | a0NonPositive
deriving DecidableEq

/-- Result of a `setParams` call: the updated parameter arrays and the
warnings logged.  `setParams` contains no throw statement, so the result
type is a plain record, never an exception. -/
structure SetParamsResult where
  K : ℕ → ℝ
  A0 : ℕ → ℝ
  warnings : List MeshWarning

/-- The warnings the source logs: `K <= 0` first, then `A0 <= 0`. -/
def paramWarnings (Kv A0v : ℝ) : List MeshWarning :=
  (if Kv ≤ 0 then [MeshWarning.kNonPositive] else [])
    ++ (if A0v ≤ 0 then [MeshWarning.a0NonPositive] else [])

/-- `AreaConservationMeshForceCompute::setParams`: stores and warns only
under `!m_ignore_type || type == 0`. -/
def acSetParams (ign : Bool) (K A0 : ℕ → ℝ) (type : ℕ) (Kv A0v : ℝ) : SetParamsResult :=
  if ign = false ∨ type = 0 then
    { K := fun s => if s = type then Kv else K s
      A0 := fun s => if s = type then A0v else A0 s
      warnings := paramWarnings Kv A0v }
  else { K := K, A0 := A0, warnings := [] }

/-- `TriangleAreaConservationMeshForceCompute::setParams`: always stores
and warns. -/
def tacSetParams (K A0 : ℕ → ℝ) (type : ℕ) (Kv A0v : ℝ) : SetParamsResult :=
  { K := fun s => if s = type then Kv else K s
    A0 := fun s => if s = type then A0v else A0 s
    warnings := paramWarnings Kv A0v }

/-- Number of allocated per-type parameter slots: collapsed to one by the
constructor when `ignore_type` is set. -/
def paramSlots (ign : Bool) (nTypes : ℕ) : ℕ := if ign then 1 else nTypes

/-- The fatal error of the accelerator path. -/
inductive MeshError
  | triangleOutOfBounds
deriving DecidableEq

/-- The error-check epilogue of
`AreaConservationMeshForceComputeGPU::computeForces`: only when CUDA
error checking is enabled is the flag word read back, and a runtime
error is raised when `flags & 1` is nonzero. -/
def gpuPostLaunchCheck (checking : Bool) (flag : ℕ) : Except MeshError Unit :=
  if checking then
    if flag &&& 1 ≠ 0 then Except.error MeshError.triangleOutOfBounds else Except.ok ()
  else Except.ok ()

/-- Concrete particle data: four particles at the corners of a unit
square in the XY plane. -/
def pdX : ParticleData where
  pos := fun n =>
    if n = 0 then ⟨0, 0, 0⟩
    else if n = 1 then ⟨1, 0, 0⟩
    else if n = 2 then ⟨0, 1, 0⟩
    else ⟨1, 1, 0⟩
  rtag := fun n => n
  numOwned := 4
  minImage := fun v => v

/-- First concrete triangle of the square mesh. -/
def triX1 : MeshTriangle := ⟨0, 1, 2, 0⟩

/-- Second concrete triangle of the square mesh. -/
def triX2 : MeshTriangle := ⟨3, 1, 2, 0⟩

/-- A two-triangle mesh covering the unit square. -/
def trisX : List MeshTriangle := [triX1, triX2]

/-- Whole-mesh parameters `K = 1`, `A0 = 1/2`, with `ignore_type` set. -/
def stX : ACState := ⟨fun _ => 1, fun _ => 1 / 2, fun _ => 0, true⟩

/-- Concrete particle data: a single unit right triangle in the XY
plane. -/
def pdY : ParticleData where
  pos := fun n =>
    if n = 0 then ⟨0, 0, 0⟩
    else if n = 1 then ⟨1, 0, 0⟩
    else ⟨0, 1, 0⟩
  rtag := fun n => n
  numOwned := 3
  minImage := fun v => v

/-- The single concrete triangle on `pdY`. -/
def triY : MeshTriangle := ⟨0, 1, 2, 0⟩

/-- Whole-mesh parameters with target area `A0 = 1/2`, matching the
actual area of `triY`. -/
def stY : ACState := ⟨fun _ => 1, fun _ => 1 / 2, fun _ => 0, false⟩

/-- Minimal particle data with three owned particles (positions at the
origin; only the index bookkeeping matters where this is used). -/
def pdD : ParticleData := ⟨fun _ => Vec3.zero, fun n => n, 3, fun v => v⟩

/-- A triangle over the three particles of `pdD`. -/
def triD : MeshTriangle := ⟨0, 1, 2, 0⟩

/-- Simple whole-mesh parameter state. -/
def stD : ACState := ⟨fun _ => 1, fun _ => 1, fun _ => 0, false⟩

/-- Simple per-triangle parameter state. -/
def st2D : TACState := ⟨fun _ => 1, fun _ => 1, fun _ => 0⟩

/-! Helper lemmas. -/

@[simp]
theorem vec3_add_zero_right (v : Vec3) : Vec3.add v Vec3.zero = v := by
  ext <;> simp

@[simp]
theorem vec3_add_zero_left (v : Vec3) : Vec3.add Vec3.zero v = v := by
  ext <;> simp

@[simp]
theorem vec3_neg_zero : Vec3.neg Vec3.zero = Vec3.zero := by
  ext <;> simp

/-- Reading the force slot of a guarded accumulation. -/
theorem bumpForce_force (b : Buffers) (n i : ℕ) (F : Vec3) (e : ℝ) (vir : Fin 6 → ℝ)
    (j : ℕ) :
    (bumpForce b n i F e vir).force j =
      if i < n ∧ j = i then Vec3.add (b.force j) F else b.force j := by
  unfold bumpForce
  by_cases h1 : i < n <;> by_cases h2 : j = i <;> simp [h1, h2]

/-- Reading the energy slot of a guarded accumulation. -/
theorem bumpForce_energy (b : Buffers) (n i : ℕ) (F : Vec3) (e : ℝ) (vir : Fin 6 → ℝ)
    (j : ℕ) :
    (bumpForce b n i F e vir).energy j =
      if i < n ∧ j = i then b.energy j + e else b.energy j := by
  unfold bumpForce
  by_cases h1 : i < n <;> by_cases h2 : j = i <;> simp [h1, h2]

/-- Reading a virial slot of a guarded accumulation. -/
theorem bumpForce_virial (b : Buffers) (n i : ℕ) (F : Vec3) (e : ℝ) (vir : Fin 6 → ℝ)
    (j : ℕ) (k : Fin 6) :
    (bumpForce b n i F e vir).virial j k =
      if i < n ∧ j = i then b.virial j k + vir k else b.virial j k := by
  unfold bumpForce
  by_cases h1 : i < n <;> by_cases h2 : j = i <;> simp [h1, h2]

/-- A unit vector has edge length one. -/
theorem edgeR_unit {d : Vec3} (h : Vec3.dot d d = 1) : edgeR d = 1 := by
  rw [edgeR, h, Real.sqrt_one]

/-- Normalizing a unit vector is the identity. -/
theorem edgeN_unit {d : Vec3} (h : Vec3.dot d d = 1) : edgeN d = d := by
  unfold edgeN
  rw [edgeR_unit h]
  ext <;> simp

/-- For orthogonal unit edges the clamped cosine is zero. -/
theorem cosC_unit_ortho {d1 d2 : Vec3} (h1 : Vec3.dot d1 d1 = 1) (h2 : Vec3.dot d2 d2 = 1)
    (h3 : Vec3.dot d1 d2 = 0) : cosC d1 d2 = 0 := by
  unfold cosC
  rw [edgeN_unit h1, edgeN_unit h2, h3]
  unfold clampCos
  norm_num

/-- For orthogonal unit edges the sine is one. -/
theorem sinS_unit_ortho {d1 d2 : Vec3} (h1 : Vec3.dot d1 d1 = 1) (h2 : Vec3.dot d2 d2 = 1)
    (h3 : Vec3.dot d1 d2 = 0) : sinS d1 d2 = 1 := by
  unfold sinS
  rw [cosC_unit_ortho h1 h2 h3]
  norm_num

/-- For orthogonal unit edges the triangle area is `1/2`. -/
theorem fullArea_unit_ortho {d1 d2 : Vec3} (h1 : Vec3.dot d1 d1 = 1)
    (h2 : Vec3.dot d2 d2 = 1) (h3 : Vec3.dot d1 d2 = 0) : fullArea d1 d2 = 1 / 2 := by
  unfold fullArea
  rw [edgeR_unit h1, edgeR_unit h2, sinS_unit_ortho h1 h2 h3]
  norm_num

/-- A guarded accumulation never touches a slot at or beyond the owned
count. -/
theorem bumpForce_ghost (b : Buffers) (n i j : ℕ) (F : Vec3) (e : ℝ) (vir : Fin 6 → ℝ)
    (h : n ≤ i) :
    (bumpForce b n j F e vir).force i = b.force i
      ∧ (bumpForce b n j F e vir).energy i = b.energy i
      ∧ ∀ k, (bumpForce b n j F e vir).virial i k = b.virial i k := by
  have hcond : ¬(j < n ∧ i = j) := by
    rintro ⟨hj, rfl⟩
    omega
  exact ⟨by rw [bumpForce_force, if_neg hcond], by rw [bumpForce_energy, if_neg hcond],
    fun k => by rw [bumpForce_virial, if_neg hcond]⟩

/-- One whole-mesh loop iteration never touches a ghost slot. -/
theorem acStep_ghost (pd : ParticleData) (st : ACState) (tris0 : List MeshTriangle)
    (cv : Bool) (b : Buffers) (tri : MeshTriangle) (i : ℕ) (h : pd.numOwned ≤ i) :
    (acStep pd st tris0 cv b tri).force i = b.force i
      ∧ (acStep pd st tris0 cv b tri).energy i = b.energy i
      ∧ ∀ k, (acStep pd st tris0 cv b tri).virial i k = b.virial i k := by
  have hcond : ∀ j : ℕ, (j < pd.numOwned ∧ i = j) ↔ False := by
    intro j
    constructor
    · rintro ⟨hj, rfl⟩
      omega
    · exact False.elim
  unfold acStep
  refine ⟨?_, ?_, fun k => ?_⟩ <;>
    simp [bumpForce_force, bumpForce_energy, bumpForce_virial, hcond]

/-- One per-triangle loop iteration never touches a ghost slot. -/
theorem tacStep_ghost (pd : ParticleData) (st : TACState) (cv : Bool)
    (acc : Buffers × (ℕ → ℝ)) (tri : MeshTriangle) (i : ℕ) (h : pd.numOwned ≤ i) :
    (tacStep pd st cv acc tri).1.force i = acc.1.force i
      ∧ (tacStep pd st cv acc tri).1.energy i = acc.1.energy i
      ∧ ∀ k, (tacStep pd st cv acc tri).1.virial i k = acc.1.virial i k := by
  have hcond : ∀ j : ℕ, (j < pd.numOwned ∧ i = j) ↔ False := by
    intro j
    constructor
    · rintro ⟨hj, rfl⟩
      omega
    · exact False.elim
  unfold tacStep
  refine ⟨?_, ?_, fun k => ?_⟩ <;>
    simp [bumpForce_force, bumpForce_energy, bumpForce_virial, hcond]

/-- The whole-mesh triangle loop never touches a ghost slot. -/
theorem acFold_ghost (pd : ParticleData) (st : ACState) (tris0 : List MeshTriangle)
    (cv : Bool) (i : ℕ) (h : pd.numOwned ≤ i) :
    ∀ (l : List MeshTriangle) (b : Buffers),
      (l.foldl (acStep pd st tris0 cv) b).force i = b.force i
        ∧ (l.foldl (acStep pd st tris0 cv) b).energy i = b.energy i
        ∧ ∀ k, (l.foldl (acStep pd st tris0 cv) b).virial i k = b.virial i k := by
  intro l
  induction l with
  | nil => exact fun b => ⟨rfl, rfl, fun k => rfl⟩
  | cons tri l ih =>
    intro b
    rw [List.foldl_cons]
    obtain ⟨hf, he, hv⟩ := ih (acStep pd st tris0 cv b tri)
    obtain ⟨sf, se, sv⟩ := acStep_ghost pd st tris0 cv b tri i h
    exact ⟨hf.trans sf, he.trans se, fun k => (hv k).trans (sv k)⟩

/-- The per-triangle loop never touches a ghost slot. -/
theorem tacFold_ghost (pd : ParticleData) (st : TACState) (cv : Bool) (i : ℕ)
    (h : pd.numOwned ≤ i) :
    ∀ (l : List MeshTriangle) (acc : Buffers × (ℕ → ℝ)),
      (l.foldl (tacStep pd st cv) acc).1.force i = acc.1.force i
        ∧ (l.foldl (tacStep pd st cv) acc).1.energy i = acc.1.energy i
        ∧ ∀ k, (l.foldl (tacStep pd st cv) acc).1.virial i k = acc.1.virial i k := by
  intro l
  induction l with
  | nil => exact fun acc => ⟨rfl, rfl, fun k => rfl⟩
  | cons tri l ih =>
    intro acc
    rw [List.foldl_cons]
    obtain ⟨hf, he, hv⟩ := ih (tacStep pd st cv acc tri)
    obtain ⟨sf, se, sv⟩ := tacStep_ghost pd st cv acc tri i h
    exact ⟨hf.trans sf, he.trans se, fun k => (hv k).trans (sv k)⟩

/-- C5: after `computeForces`, every force/energy slot and every virial
slot of a ghost particle (local index at or beyond the owned count) is
zero, in both the whole-mesh and per-triangle variants: the buffers are
zeroed up front and all writes are guarded by `index < getN()`. -/
theorem ghostSlotsZero (pd : ParticleData) (st : ACState) (st2 : TACState)
    (tris : List MeshTriangle) (cv : Bool) (i : ℕ) (h : pd.numOwned ≤ i) :
    ((acComputeForces pd st tris cv).1.force i = Vec3.zero
      ∧ (acComputeForces pd st tris cv).1.energy i = 0
      ∧ ∀ k, (acComputeForces pd st tris cv).1.virial i k = 0)
    ∧ ((tacComputeForces pd st2 tris cv).1.force i = Vec3.zero
      ∧ (tacComputeForces pd st2 tris cv).1.energy i = 0
      ∧ ∀ k, (tacComputeForces pd st2 tris cv).1.virial i k = 0) := by
  have h1 := acFold_ghost pd (acPrecomputed pd st tris) tris cv i h tris zeroBuffers
  have h2 := tacFold_ghost pd st2 cv i h tris (zeroBuffers, fun _ => 0)
  constructor
  · simpa [acComputeForces, zeroBuffers] using h1
  · simpa [tacComputeForces, zeroBuffers] using h2

/-- Witness for C5 at a concrete ghost index. -/
theorem ghostSlotsZeroWitness :
    pdD.numOwned ≤ 3
    ∧ (((acComputeForces pdD stD [triD] false).1.force 3 = Vec3.zero
      ∧ (acComputeForces pdD stD [triD] false).1.energy 3 = 0
      ∧ ∀ k, (acComputeForces pdD stD [triD] false).1.virial 3 k = 0)
    ∧ ((tacComputeForces pdD st2D [triD] false).1.force 3 = Vec3.zero
      ∧ (tacComputeForces pdD st2D [triD] false).1.energy 3 = 0
      ∧ ∀ k, (tacComputeForces pdD st2D [triD] false).1.virial 3 k = 0)) :=
  ⟨by decide, ghostSlotsZero pdD stD st2D [triD] false 3 (by decide)⟩

/-- What one whole-mesh loop iteration adds at the three vertex slots,
when the three resolved indices are distinct and locally owned. -/
theorem acStep_deltas (pd : ParticleData) (st : ACState) (tris0 : List MeshTriangle)
    (cv : Bool) (b : Buffers) (tri : MeshTriangle)
    (hab : pd.rtag tri.tagA ≠ pd.rtag tri.tagB)
    (hac : pd.rtag tri.tagA ≠ pd.rtag tri.tagC)
    (hbc : pd.rtag tri.tagB ≠ pd.rtag tri.tagC)
    (ha : pd.rtag tri.tagA < pd.numOwned)
    (hb : pd.rtag tri.tagB < pd.numOwned)
    (hc : pd.rtag tri.tagC < pd.numOwned) :
    (acStep pd st tris0 cv b tri).force (pd.rtag tri.tagA)
        = Vec3.add (b.force (pd.rtag tri.tagA))
            (Vec3.add
              (forceFab (acPref st (effType st.ignoreType tri)) (triDab pd tri) (triDac pd tri))
              (forceFac (acPref st (effType st.ignoreType tri)) (triDab pd tri) (triDac pd tri)))
      ∧ (acStep pd st tris0 cv b tri).force (pd.rtag tri.tagB)
        = Vec3.add (b.force (pd.rtag tri.tagB))
            (Vec3.neg
              (forceFab (acPref st (effType st.ignoreType tri)) (triDab pd tri) (triDac pd tri)))
      ∧ (acStep pd st tris0 cv b tri).force (pd.rtag tri.tagC)
        = Vec3.add (b.force (pd.rtag tri.tagC))
            (Vec3.neg
              (forceFac (acPref st (effType st.ignoreType tri)) (triDab pd tri) (triDac pd tri)))
      ∧ (acStep pd st tris0 cv b tri).energy (pd.rtag tri.tagA)
        = b.energy (pd.rtag tri.tagA) + acEnergyPerVertex st tris0 tri
      ∧ (acStep pd st tris0 cv b tri).energy (pd.rtag tri.tagB)
        = b.energy (pd.rtag tri.tagB) + acEnergyPerVertex st tris0 tri
      ∧ (acStep pd st tris0 cv b tri).energy (pd.rtag tri.tagC)
        = b.energy (pd.rtag tri.tagC) + acEnergyPerVertex st tris0 tri := by
  unfold acStep
  refine ⟨?_, ?_, ?_, ?_, ?_, ?_⟩ <;>
    simp [bumpForce_force, bumpForce_energy, ha, hb, hc, hab, hac, hbc,
      Ne.symm hab, Ne.symm hac, Ne.symm hbc]

/-- What one per-triangle loop iteration adds at the three vertex slots,
when the three resolved indices are distinct and locally owned. -/
theorem tacStep_deltas (pd : ParticleData) (st : TACState) (cv : Bool)
    (acc : Buffers × (ℕ → ℝ)) (tri : MeshTriangle)
    (hab : pd.rtag tri.tagA ≠ pd.rtag tri.tagB)
    (hac : pd.rtag tri.tagA ≠ pd.rtag tri.tagC)
    (hbc : pd.rtag tri.tagB ≠ pd.rtag tri.tagC)
    (ha : pd.rtag tri.tagA < pd.numOwned)
    (hb : pd.rtag tri.tagB < pd.numOwned)
    (hc : pd.rtag tri.tagC < pd.numOwned) :
    (tacStep pd st cv acc tri).1.force (pd.rtag tri.tagA)
        = Vec3.add (acc.1.force (pd.rtag tri.tagA))
            (Vec3.add
              (forceFab (st.K tri.ttype / (2 * st.A0 tri.ttype)
                  * (3 * tacTriArea pd tri - st.A0 tri.ttype)) (triDab pd tri) (triDac pd tri))
              (forceFac (st.K tri.ttype / (2 * st.A0 tri.ttype)
                  * (3 * tacTriArea pd tri - st.A0 tri.ttype)) (triDab pd tri) (triDac pd tri)))
      ∧ (tacStep pd st cv acc tri).1.force (pd.rtag tri.tagB)
        = Vec3.add (acc.1.force (pd.rtag tri.tagB))
            (Vec3.neg (forceFab (st.K tri.ttype / (2 * st.A0 tri.ttype)
              * (3 * tacTriArea pd tri - st.A0 tri.ttype)) (triDab pd tri) (triDac pd tri)))
      ∧ (tacStep pd st cv acc tri).1.force (pd.rtag tri.tagC)
        = Vec3.add (acc.1.force (pd.rtag tri.tagC))
            (Vec3.neg (forceFac (st.K tri.ttype / (2 * st.A0 tri.ttype)
              * (3 * tacTriArea pd tri - st.A0 tri.ttype)) (triDab pd tri) (triDac pd tri)))
      ∧ (tacStep pd st cv acc tri).1.energy (pd.rtag tri.tagA)
        = acc.1.energy (pd.rtag tri.tagA)
          + st.K tri.ttype / (6 * st.A0 tri.ttype)
            * (3 * tacTriArea pd tri - st.A0 tri.ttype)
            * (3 * tacTriArea pd tri - st.A0 tri.ttype)
      ∧ (tacStep pd st cv acc tri).1.energy (pd.rtag tri.tagB)
        = acc.1.energy (pd.rtag tri.tagB)
          + st.K tri.ttype / (6 * st.A0 tri.ttype)
            * (3 * tacTriArea pd tri - st.A0 tri.ttype)
            * (3 * tacTriArea pd tri - st.A0 tri.ttype)
      ∧ (tacStep pd st cv acc tri).1.energy (pd.rtag tri.tagC)
        = acc.1.energy (pd.rtag tri.tagC)
          + st.K tri.ttype / (6 * st.A0 tri.ttype)
            * (3 * tacTriArea pd tri - st.A0 tri.ttype)
            * (3 * tacTriArea pd tri - st.A0 tri.ttype) := by
  unfold tacStep
  refine ⟨?_, ?_, ?_, ?_, ?_, ?_⟩ <;>
    simp [bumpForce_force, bumpForce_energy, ha, hb, hc, hab, hac, hbc,
      Ne.symm hab, Ne.symm hac, Ne.symm hbc]

/-- Three thirds of a triangle's area make the full area. -/
theorem three_tacTriArea (pd : ParticleData) (tri : MeshTriangle) :
    tacTriArea pd tri + tacTriArea pd tri + tacTriArea pd tri = tacFullArea pd tri := by
  unfold tacTriArea tacFullArea fullArea
  ring

/-- `Ut = 3 * tri_area - A0` is the difference between the triangle's
full area and the target. -/
theorem tacUt_eq (pd : ParticleData) (tri : MeshTriangle) (At : ℝ) :
    3 * tacTriArea pd tri - At = tacFullArea pd tri - At := by
  unfold tacTriArea tacFullArea fullArea
  ring

/-- C3: for a well-formed triangle with three distinct, locally owned
vertices, the three vertex force contributions of one triangle-loop
iteration (`Fab+Fac` at `a`, `-Fab` at `b`, `-Fac` at `c`) sum to the
zero vector, in both the whole-mesh and per-triangle variants. -/
theorem triangleForceBalance (pd : ParticleData) (st : ACState) (st2 : TACState)
    (tris0 : List MeshTriangle) (cv : Bool) (b : Buffers) (acc : Buffers × (ℕ → ℝ))
    (tri : MeshTriangle)
    (hab : pd.rtag tri.tagA ≠ pd.rtag tri.tagB)
    (hac : pd.rtag tri.tagA ≠ pd.rtag tri.tagC)
    (hbc : pd.rtag tri.tagB ≠ pd.rtag tri.tagC)
    (ha : pd.rtag tri.tagA < pd.numOwned)
    (hb : pd.rtag tri.tagB < pd.numOwned)
    (hc : pd.rtag tri.tagC < pd.numOwned) :
    Vec3.add (Vec3.add
        (Vec3.sub ((acStep pd st tris0 cv b tri).force (pd.rtag tri.tagA))
          (b.force (pd.rtag tri.tagA)))
        (Vec3.sub ((acStep pd st tris0 cv b tri).force (pd.rtag tri.tagB))
          (b.force (pd.rtag tri.tagB))))
        (Vec3.sub ((acStep pd st tris0 cv b tri).force (pd.rtag tri.tagC))
          (b.force (pd.rtag tri.tagC)))
      = Vec3.zero
    ∧ Vec3.add (Vec3.add
        (Vec3.sub ((tacStep pd st2 cv acc tri).1.force (pd.rtag tri.tagA))
          (acc.1.force (pd.rtag tri.tagA)))
        (Vec3.sub ((tacStep pd st2 cv acc tri).1.force (pd.rtag tri.tagB))
          (acc.1.force (pd.rtag tri.tagB))))
        (Vec3.sub ((tacStep pd st2 cv acc tri).1.force (pd.rtag tri.tagC))
          (acc.1.force (pd.rtag tri.tagC)))
      = Vec3.zero := by
  obtain ⟨fa, fb, fc, -, -, -⟩ := acStep_deltas pd st tris0 cv b tri hab hac hbc ha hb hc
  obtain ⟨ga, gb, gc, -, -, -⟩ := tacStep_deltas pd st2 cv acc tri hab hac hbc ha hb hc
  constructor
  · rw [fa, fb, fc]
    ext <;> simp
  · rw [ga, gb, gc]
    ext <;> simp

/-- Witness for C3 on a concrete triangle. -/
theorem triangleForceBalanceWitness :
    (pdD.rtag triD.tagA ≠ pdD.rtag triD.tagB
      ∧ pdD.rtag triD.tagA ≠ pdD.rtag triD.tagC
      ∧ pdD.rtag triD.tagB ≠ pdD.rtag triD.tagC
      ∧ pdD.rtag triD.tagA < pdD.numOwned
      ∧ pdD.rtag triD.tagB < pdD.numOwned
      ∧ pdD.rtag triD.tagC < pdD.numOwned)
    ∧ (Vec3.add (Vec3.add
        (Vec3.sub ((acStep pdD stD [triD] false zeroBuffers triD).force (pdD.rtag triD.tagA))
          (zeroBuffers.force (pdD.rtag triD.tagA)))
        (Vec3.sub ((acStep pdD stD [triD] false zeroBuffers triD).force (pdD.rtag triD.tagB))
          (zeroBuffers.force (pdD.rtag triD.tagB))))
        (Vec3.sub ((acStep pdD stD [triD] false zeroBuffers triD).force (pdD.rtag triD.tagC))
          (zeroBuffers.force (pdD.rtag triD.tagC)))
      = Vec3.zero
    ∧ Vec3.add (Vec3.add
        (Vec3.sub ((tacStep pdD st2D false (zeroBuffers, fun _ => 0) triD).1.force
            (pdD.rtag triD.tagA))
          (zeroBuffers.force (pdD.rtag triD.tagA)))
        (Vec3.sub ((tacStep pdD st2D false (zeroBuffers, fun _ => 0) triD).1.force
            (pdD.rtag triD.tagB))
          (zeroBuffers.force (pdD.rtag triD.tagB))))
        (Vec3.sub ((tacStep pdD st2D false (zeroBuffers, fun _ => 0) triD).1.force
            (pdD.rtag triD.tagC))
          (zeroBuffers.force (pdD.rtag triD.tagC)))
      = Vec3.zero) :=
  ⟨⟨by decide, by decide, by decide, by decide, by decide, by decide⟩,
    triangleForceBalance pdD stD st2D [triD] false zeroBuffers (zeroBuffers, fun _ => 0) triD
      (by decide) (by decide) (by decide) (by decide) (by decide) (by decide)⟩

/-- C2: for a triangle with three distinct, locally owned vertices, the
per-particle energy contributions of one loop iteration sum to the
triangle's total constraint energy.  In the per-triangle variant each
vertex receives `K/(6*A0)*(A_tri - A0)^2` and the three contributions
sum to `K/(2*A0)*(A_tri - A0)^2`; in the whole-mesh variant the three
contributions sum to three times the shared per-vertex aggregate term. -/
theorem triangleEnergySplit (pd : ParticleData) (st : ACState) (st2 : TACState)
    (tris0 : List MeshTriangle) (cv : Bool) (b : Buffers) (acc : Buffers × (ℕ → ℝ))
    (tri : MeshTriangle)
    (hab : pd.rtag tri.tagA ≠ pd.rtag tri.tagB)
    (hac : pd.rtag tri.tagA ≠ pd.rtag tri.tagC)
    (hbc : pd.rtag tri.tagB ≠ pd.rtag tri.tagC)
    (ha : pd.rtag tri.tagA < pd.numOwned)
    (hb : pd.rtag tri.tagB < pd.numOwned)
    (hc : pd.rtag tri.tagC < pd.numOwned) :
    ((tacStep pd st2 cv acc tri).1.energy (pd.rtag tri.tagA) - acc.1.energy (pd.rtag tri.tagA)
        = st2.K tri.ttype / (6 * st2.A0 tri.ttype)
          * (tacFullArea pd tri - st2.A0 tri.ttype) ^ 2
      ∧ (tacStep pd st2 cv acc tri).1.energy (pd.rtag tri.tagB)
          - acc.1.energy (pd.rtag tri.tagB)
        = st2.K tri.ttype / (6 * st2.A0 tri.ttype)
          * (tacFullArea pd tri - st2.A0 tri.ttype) ^ 2
      ∧ (tacStep pd st2 cv acc tri).1.energy (pd.rtag tri.tagC)
          - acc.1.energy (pd.rtag tri.tagC)
        = st2.K tri.ttype / (6 * st2.A0 tri.ttype)
          * (tacFullArea pd tri - st2.A0 tri.ttype) ^ 2
      ∧ ((tacStep pd st2 cv acc tri).1.energy (pd.rtag tri.tagA)
            - acc.1.energy (pd.rtag tri.tagA))
          + ((tacStep pd st2 cv acc tri).1.energy (pd.rtag tri.tagB)
            - acc.1.energy (pd.rtag tri.tagB))
          + ((tacStep pd st2 cv acc tri).1.energy (pd.rtag tri.tagC)
            - acc.1.energy (pd.rtag tri.tagC))
        = st2.K tri.ttype / (2 * st2.A0 tri.ttype)
          * (tacFullArea pd tri - st2.A0 tri.ttype) ^ 2)
    ∧ ((acStep pd st tris0 cv b tri).energy (pd.rtag tri.tagA)
          - b.energy (pd.rtag tri.tagA))
        + ((acStep pd st tris0 cv b tri).energy (pd.rtag tri.tagB)
          - b.energy (pd.rtag tri.tagB))
        + ((acStep pd st tris0 cv b tri).energy (pd.rtag tri.tagC)
          - b.energy (pd.rtag tri.tagC))
      = 3 * acEnergyPerVertex st tris0 tri := by
  obtain ⟨-, -, -, ea, eb, ec⟩ := acStep_deltas pd st tris0 cv b tri hab hac hbc ha hb hc
  obtain ⟨-, -, -, ta, tb, tc⟩ := tacStep_deltas pd st2 cv acc tri hab hac hbc ha hb hc
  have hU := tacUt_eq pd tri (st2.A0 tri.ttype)
  refine ⟨⟨?_, ?_, ?_, ?_⟩, ?_⟩
  · rw [ta, hU]; ring
  · rw [tb, hU]; ring
  · rw [tc, hU]; ring
  · rw [ta, tb, tc, hU]; ring
  · rw [ea, eb, ec]; ring

/-- Witness for C2 on a concrete triangle. -/
theorem triangleEnergySplitWitness :
    (pdD.rtag triD.tagA ≠ pdD.rtag triD.tagB
      ∧ pdD.rtag triD.tagA ≠ pdD.rtag triD.tagC
      ∧ pdD.rtag triD.tagB ≠ pdD.rtag triD.tagC
      ∧ pdD.rtag triD.tagA < pdD.numOwned
      ∧ pdD.rtag triD.tagB < pdD.numOwned
      ∧ pdD.rtag triD.tagC < pdD.numOwned)
    ∧ (((tacStep pdD st2D false (zeroBuffers, fun _ => 0) triD).1.energy (pdD.rtag triD.tagA)
          - zeroBuffers.energy (pdD.rtag triD.tagA)
        = st2D.K triD.ttype / (6 * st2D.A0 triD.ttype)
          * (tacFullArea pdD triD - st2D.A0 triD.ttype) ^ 2
      ∧ (tacStep pdD st2D false (zeroBuffers, fun _ => 0) triD).1.energy (pdD.rtag triD.tagB)
          - zeroBuffers.energy (pdD.rtag triD.tagB)
        = st2D.K triD.ttype / (6 * st2D.A0 triD.ttype)
          * (tacFullArea pdD triD - st2D.A0 triD.ttype) ^ 2
      ∧ (tacStep pdD st2D false (zeroBuffers, fun _ => 0) triD).1.energy (pdD.rtag triD.tagC)
          - zeroBuffers.energy (pdD.rtag triD.tagC)
        = st2D.K triD.ttype / (6 * st2D.A0 triD.ttype)
          * (tacFullArea pdD triD - st2D.A0 triD.ttype) ^ 2
      ∧ ((tacStep pdD st2D false (zeroBuffers, fun _ => 0) triD).1.energy (pdD.rtag triD.tagA)
            - zeroBuffers.energy (pdD.rtag triD.tagA))
          + ((tacStep pdD st2D false (zeroBuffers, fun _ => 0) triD).1.energy (pdD.rtag triD.tagB)
            - zeroBuffers.energy (pdD.rtag triD.tagB))
          + ((tacStep pdD st2D false (zeroBuffers, fun _ => 0) triD).1.energy (pdD.rtag triD.tagC)
            - zeroBuffers.energy (pdD.rtag triD.tagC))
        = st2D.K triD.ttype / (2 * st2D.A0 triD.ttype)
          * (tacFullArea pdD triD - st2D.A0 triD.ttype) ^ 2)
    ∧ ((acStep pdD stD [triD] false zeroBuffers triD).energy (pdD.rtag triD.tagA)
          - zeroBuffers.energy (pdD.rtag triD.tagA))
        + ((acStep pdD stD [triD] false zeroBuffers triD).energy (pdD.rtag triD.tagB)
          - zeroBuffers.energy (pdD.rtag triD.tagB))
        + ((acStep pdD stD [triD] false zeroBuffers triD).energy (pdD.rtag triD.tagC)
          - zeroBuffers.energy (pdD.rtag triD.tagC))
      = 3 * acEnergyPerVertex stD [triD] triD) :=
  ⟨⟨by decide, by decide, by decide, by decide, by decide, by decide⟩,
    triangleEnergySplit pdD stD st2D [triD] false zeroBuffers (zeroBuffers, fun _ => 0) triD
      (by decide) (by decide) (by decide) (by decide) (by decide) (by decide)⟩

/-- The per-vertex energy value of the whole-mesh loop, with `m_area`
freshly precomputed, written out in closed form. -/
theorem acEnergyPerVertex_precomputed (pd : ParticleData) (st : ACState)
    (tris : List MeshTriangle) (tri : MeshTriangle) :
    acEnergyPerVertex (acPrecomputed pd st tris) tris tri
      = st.K (effType st.ignoreType tri)
          * (acAreaComputed pd st.ignoreType tris (effType st.ignoreType tri)
              - st.A0 (effType st.ignoreType tri)) ^ 2
          / (6 * st.A0 (effType st.ignoreType tri)
            * (triNof st.ignoreType tris tri.ttype : ℝ)) := by
  simp only [acEnergyPerVertex, acPrecomputed]
  ring

/-- C1 (amended): in the whole-mesh variant, the energy contribution the
triangle loop of `computeForces` writes to each owned vertex of a
triangle of effective type `t` is
`K[t] * (area[t] - A0[t])^2 / (6 * A0[t] * N_active)`, where `area` is
the freshly precomputed aggregate area and `N_active` is the per-type
triangle count when types are distinguished and the total mesh triangle
count (`getSize()`) when `ignore_type` is active. -/
theorem acEnergyContributionFormula (pd : ParticleData) (st : ACState)
    (tris : List MeshTriangle) (cv : Bool) (b : Buffers) (tri : MeshTriangle)
    (hab : pd.rtag tri.tagA ≠ pd.rtag tri.tagB)
    (hac : pd.rtag tri.tagA ≠ pd.rtag tri.tagC)
    (hbc : pd.rtag tri.tagB ≠ pd.rtag tri.tagC)
    (ha : pd.rtag tri.tagA < pd.numOwned)
    (hb : pd.rtag tri.tagB < pd.numOwned)
    (hc : pd.rtag tri.tagC < pd.numOwned) :
    (acStep pd (acPrecomputed pd st tris) tris cv b tri).energy (pd.rtag tri.tagA)
        - b.energy (pd.rtag tri.tagA)
      = st.K (effType st.ignoreType tri)
        * (acAreaComputed pd st.ignoreType tris (effType st.ignoreType tri)
            - st.A0 (effType st.ignoreType tri)) ^ 2
        / (6 * st.A0 (effType st.ignoreType tri)
          * (triNof st.ignoreType tris tri.ttype : ℝ))
    ∧ (acStep pd (acPrecomputed pd st tris) tris cv b tri).energy (pd.rtag tri.tagB)
        - b.energy (pd.rtag tri.tagB)
      = st.K (effType st.ignoreType tri)
        * (acAreaComputed pd st.ignoreType tris (effType st.ignoreType tri)
            - st.A0 (effType st.ignoreType tri)) ^ 2
        / (6 * st.A0 (effType st.ignoreType tri)
          * (triNof st.ignoreType tris tri.ttype : ℝ))
    ∧ (acStep pd (acPrecomputed pd st tris) tris cv b tri).energy (pd.rtag tri.tagC)
        - b.energy (pd.rtag tri.tagC)
      = st.K (effType st.ignoreType tri)
        * (acAreaComputed pd st.ignoreType tris (effType st.ignoreType tri)
            - st.A0 (effType st.ignoreType tri)) ^ 2
        / (6 * st.A0 (effType st.ignoreType tri)
          * (triNof st.ignoreType tris tri.ttype : ℝ)) := by
  obtain ⟨-, -, -, ea, eb, ec⟩ :=
    acStep_deltas pd (acPrecomputed pd st tris) tris cv b tri hab hac hbc ha hb hc
  rw [acEnergyPerVertex_precomputed] at ea eb ec
  exact ⟨by rw [ea]; ring, by rw [eb]; ring, by rw [ec]; ring⟩

/-- Witness for C1's amended formula on a concrete triangle of the
two-triangle square mesh. -/
theorem acEnergyContributionFormulaWitness :
    (pdX.rtag triX2.tagA ≠ pdX.rtag triX2.tagB
      ∧ pdX.rtag triX2.tagA ≠ pdX.rtag triX2.tagC
      ∧ pdX.rtag triX2.tagB ≠ pdX.rtag triX2.tagC
      ∧ pdX.rtag triX2.tagA < pdX.numOwned
      ∧ pdX.rtag triX2.tagB < pdX.numOwned
      ∧ pdX.rtag triX2.tagC < pdX.numOwned)
    ∧ ((acStep pdX (acPrecomputed pdX stX trisX) trisX false zeroBuffers triX2).energy
          (pdX.rtag triX2.tagA)
        - zeroBuffers.energy (pdX.rtag triX2.tagA)
      = stX.K (effType stX.ignoreType triX2)
        * (acAreaComputed pdX stX.ignoreType trisX (effType stX.ignoreType triX2)
            - stX.A0 (effType stX.ignoreType triX2)) ^ 2
        / (6 * stX.A0 (effType stX.ignoreType triX2)
          * (triNof stX.ignoreType trisX triX2.ttype : ℝ))
    ∧ (acStep pdX (acPrecomputed pdX stX trisX) trisX false zeroBuffers triX2).energy
          (pdX.rtag triX2.tagB)
        - zeroBuffers.energy (pdX.rtag triX2.tagB)
      = stX.K (effType stX.ignoreType triX2)
        * (acAreaComputed pdX stX.ignoreType trisX (effType stX.ignoreType triX2)
            - stX.A0 (effType stX.ignoreType triX2)) ^ 2
        / (6 * stX.A0 (effType stX.ignoreType triX2)
          * (triNof stX.ignoreType trisX triX2.ttype : ℝ))
    ∧ (acStep pdX (acPrecomputed pdX stX trisX) trisX false zeroBuffers triX2).energy
          (pdX.rtag triX2.tagC)
        - zeroBuffers.energy (pdX.rtag triX2.tagC)
      = stX.K (effType stX.ignoreType triX2)
        * (acAreaComputed pdX stX.ignoreType trisX (effType stX.ignoreType triX2)
            - stX.A0 (effType stX.ignoreType triX2)) ^ 2
        / (6 * stX.A0 (effType stX.ignoreType triX2)
          * (triNof stX.ignoreType trisX triX2.ttype : ℝ))) :=
  ⟨⟨by decide, by decide, by decide, by decide, by decide, by decide⟩,
    acEnergyContributionFormula pdX stX trisX false zeroBuffers triX2
      (by decide) (by decide) (by decide) (by decide) (by decide) (by decide)⟩

/-- Area of the first square-mesh triangle. -/
theorem preFullArea_triX1 : preFullArea pdX triX1 = 1 / 2 := by
  unfold preFullArea
  refine fullArea_unit_ortho ?_ ?_ ?_ <;>
    simp [preDab, preDac, pdX, triX1, Vec3.dot]

/-- Area of the second square-mesh triangle. -/
theorem preFullArea_triX2 : preFullArea pdX triX2 = 1 / 2 := by
  unfold preFullArea
  refine fullArea_unit_ortho ?_ ?_ ?_ <;>
    simp [preDab, preDac, pdX, triX2, Vec3.dot]

/-- The aggregate area of the two-triangle square mesh is `1`. -/
theorem acArea_trisX : acAreaComputed pdX true trisX 0 = 1 := by
  simp [acAreaComputed, trisX, typeAccum, effType, preFullArea_triX1, preFullArea_triX2]
  norm_num

/-- The concrete energy `computeForces` writes at vertex 3 of the square
mesh (a vertex of exactly one triangle). -/
theorem acEnergyAtVertex3 : (acComputeForces pdX stX trisX false).1.energy 3 = 1 / 24 := by
  have harea : acAreaComputed pdX true [triX1, triX2] 0 = 1 := acArea_trisX
  have ra1 : pdX.rtag triX1.tagA = 0 := rfl
  have rb1 : pdX.rtag triX1.tagB = 1 := rfl
  have rc1 : pdX.rtag triX1.tagC = 2 := rfl
  have ra2 : pdX.rtag triX2.tagA = 3 := rfl
  have rb2 : pdX.rtag triX2.tagB = 1 := rfl
  have rc2 : pdX.rtag triX2.tagC = 2 := rfl
  have hn : pdX.numOwned = 4 := rfl
  have hig : stX.ignoreType = true := rfl
  have hK : stX.K 0 = 1 := rfl
  have hA : stX.A0 0 = 1 / 2 := rfl
  simp only [acComputeForces, trisX, List.foldl]
  simp only [acStep, bumpForce_energy, ra1, rb1, rc1, ra2, rb2, rc2, hn]
  norm_num [zeroBuffers]
  rw [acEnergyPerVertex_precomputed]
  simp [hig, effType, triNof, hK, hA]
  rw [harea]
  norm_num

/-- Counterexample to C1 as stated: with `ignore_type` active on a
two-triangle mesh (`K = 1`, `A0 = 1/2`, aggregate area `1`), the energy
written at a vertex belonging to exactly one triangle is `1/24` —
`K*(area-A0)^2/(6*A0*getSize())` with `getSize() = 2` — whereas the
claimed formula with `N_active = 1` gives `1/12`. -/
theorem acEnergyClaimCounterexample :
    (acComputeForces pdX stX trisX false).1.energy 3 = 1 / 24
    ∧ stX.K 0 * ((acComputeForces pdX stX trisX false).2.area 0 - stX.A0 0) ^ 2
        / (6 * stX.A0 0 * 1) = 1 / 12
    ∧ ((1 : ℝ) / 24) ≠ 1 / 12 := by
  refine ⟨acEnergyAtVertex3, ?_, by norm_num⟩
  have h2 : (acComputeForces pdX stX trisX false).2.area 0 = 1 := by
    simpa [acComputeForces, acPrecomputed, stX] using acArea_trisX
  rw [h2]
  norm_num [stX]

/-- A zero prefactor makes `Fab` vanish. -/
theorem forceFab_zeropref (dab dac : Vec3) : forceFab 0 dab dac = Vec3.zero := by
  unfold forceFab
  ext <;> simp

/-- A zero prefactor makes `Fac` vanish. -/
theorem forceFac_zeropref (dab dac : Vec3) : forceFac 0 dab dac = Vec3.zero := by
  unfold forceFac
  ext <;> simp

/-- C8: for a single-triangle mesh whose freshly computed aggregate area
equals the target `A0` of its type, the whole-mesh `computeForces`
writes zero force components and zero energy everywhere. -/
theorem acZeroForceAtTarget (pd : ParticleData) (st : ACState) (tri : MeshTriangle)
    (cv : Bool) (i : ℕ)
    (h : acAreaComputed pd st.ignoreType [tri] (effType st.ignoreType tri)
      = st.A0 (effType st.ignoreType tri)) :
    (acComputeForces pd st [tri] cv).1.force i = Vec3.zero
      ∧ (acComputeForces pd st [tri] cv).1.energy i = 0 := by
  have hity : (acPrecomputed pd st [tri]).ignoreType = st.ignoreType := rfl
  have he : acEnergyPerVertex (acPrecomputed pd st [tri]) [tri] tri = 0 := by
    rw [acEnergyPerVertex_precomputed, h]
    simp
  have hpref : acPref (acPrecomputed pd st [tri]) (effType st.ignoreType tri) = 0 := by
    unfold acPref
    simp only [acPrecomputed]
    rw [h]
    simp
  simp only [acComputeForces, List.foldl]
  constructor
  · unfold acStep
    rw [hity, hpref]
    simp only [forceFab_zeropref, forceFac_zeropref]
    simp [bumpForce_force, zeroBuffers]
  · unfold acStep
    rw [hity, he]
    simp [bumpForce_energy, zeroBuffers]

/-- Area of the single right triangle `triY`. -/
theorem preFullArea_triY : preFullArea pdY triY = 1 / 2 := by
  unfold preFullArea
  refine fullArea_unit_ortho ?_ ?_ ?_ <;>
    simp [preDab, preDac, pdY, triY, Vec3.dot]

/-- Witness for C8: a unit right triangle at its target area `1/2`. -/
theorem acZeroForceAtTargetWitness :
    (acAreaComputed pdY stY.ignoreType [triY] (effType stY.ignoreType triY)
      = stY.A0 (effType stY.ignoreType triY))
    ∧ ((acComputeForces pdY stY [triY] false).1.force 0 = Vec3.zero
      ∧ (acComputeForces pdY stY [triY] false).1.energy 0 = 0) := by
  have h : acAreaComputed pdY stY.ignoreType [triY] (effType stY.ignoreType triY)
      = stY.A0 (effType stY.ignoreType triY) := by
    have hig : stY.ignoreType = false := rfl
    simp [hig, acAreaComputed, typeAccum, effType, stY, preFullArea_triY]
  exact ⟨h, acZeroForceAtTarget pdY stY triY false 0 h⟩

/-- Characterization of the per-type accumulation fold as a filtered
list sum. -/
theorem typeAccum_foldl (key : MeshTriangle → ℕ) (val : MeshTriangle → ℝ) :
    ∀ (l : List MeshTriangle) (g : ℕ → ℝ) (t : ℕ),
      (l.foldl (typeAccum key val) g) t
        = g t + ((l.filter (fun tr => key tr == t)).map val).sum := by
  intro l
  induction l with
  | nil => intro g t; simp
  | cons tri l ih =>
    intro g t
    rw [List.foldl_cons, ih]
    by_cases h : key tri = t
    · simp [typeAccum, List.filter_cons, h, beq_iff_eq]
      ring
    · simp [typeAccum, List.filter_cons, h, beq_iff_eq, Ne.symm h]

/-- Summed over all ranks of a partition, the three thirds of a triangle
rebuild its full area. -/
theorem sum_distContrib (pd : ParticleData) (tri : MeshTriangle) (R : ℕ)
    (owner : ℕ → Fin R) :
    ∑ r : Fin R, distContrib pd (fun i => owner i == r) tri = preFullArea pd tri := by
  unfold distContrib
  rw [Finset.sum_add_distrib, Finset.sum_add_distrib]
  have key : ∀ j : ℕ,
      (∑ r : Fin R, if owner j == r then preFullArea pd tri / 3 else 0)
        = preFullArea pd tri / 3 := by
    intro j
    have hco : ∀ r : Fin R,
        (if owner j == r then preFullArea pd tri / 3 else 0)
          = if owner j = r then preFullArea pd tri / 3 else 0 := by
      intro r
      simp [beq_iff_eq]
    rw [Finset.sum_congr rfl (fun r _ => hco r), Finset.sum_ite_eq]
    simp
  rw [key, key, key]
  ring

/-- Rank-summed local areas of a filtered triangle list equal the plain
area sum. -/
theorem sum_rank_list (pd : ParticleData) (R : ℕ) (owner : ℕ → Fin R) :
    ∀ lf : List MeshTriangle,
      (∑ r : Fin R, ((lf.map (distContrib pd (fun i => owner i == r))).sum))
        = (lf.map (preFullArea pd)).sum := by
  intro lf
  induction lf with
  | nil => simp
  | cons tri l ih =>
    simp only [List.map_cons, List.sum_cons]
    rw [Finset.sum_add_distrib, ih, sum_distContrib]

/-- C4: aggregate-area computation is partition invariant.  For any
assignment of each local index to exactly one owning rank, summing the
rank-local distributed accumulations (each triangle split into thirds,
one third per owned vertex) over all ranks reproduces the
non-distributed per-type aggregate area exactly. -/
theorem areaPartitionInvariant (pd : ParticleData) (ign : Bool)
    (tris : List MeshTriangle) (R : ℕ) (owner : ℕ → Fin R) (t : ℕ) :
    ∑ r : Fin R, acAreaDistLocal pd ign (fun i => owner i == r) tris t
      = acAreaComputed pd ign tris t := by
  have hL : ∀ owns : ℕ → Bool,
      acAreaDistLocal pd ign owns tris t
        = ((tris.filter (fun tr => effType ign tr == t)).map (distContrib pd owns)).sum := by
    intro owns
    unfold acAreaDistLocal
    rw [typeAccum_foldl]
    simp
  have hR : acAreaComputed pd ign tris t
      = ((tris.filter (fun tr => effType ign tr == t)).map (preFullArea pd)).sum := by
    unfold acAreaComputed
    rw [typeAccum_foldl]
    simp
  simp only [hL, hR]
  exact sum_rank_list pd R owner (tris.filter (fun tr => effType ign tr == t))

/-- Characterization of the `global_area` accumulation of the
per-triangle loop when every triangle vertex is locally owned. -/
theorem tacFold_area (pd : ParticleData) (st : TACState) (cv : Bool) (t : ℕ) :
    ∀ (l : List MeshTriangle) (acc : Buffers × (ℕ → ℝ)),
      (∀ tri ∈ l, pd.rtag tri.tagA < pd.numOwned ∧ pd.rtag tri.tagB < pd.numOwned
        ∧ pd.rtag tri.tagC < pd.numOwned) →
      (l.foldl (tacStep pd st cv) acc).2 t
        = acc.2 t + ((l.filter (fun tr => tr.ttype == t)).map (tacFullArea pd)).sum := by
  intro l
  induction l with
  | nil => intro acc h; simp
  | cons tri l ih =>
    intro acc hall
    have ha := (hall tri (List.mem_cons_self tri l)).1
    have hb := (hall tri (List.mem_cons_self tri l)).2.1
    have hc := (hall tri (List.mem_cons_self tri l)).2.2
    rw [List.foldl_cons, ih _ (fun tr htr => hall tr (List.mem_cons_of_mem tri htr))]
    have hstep : (tacStep pd st cv acc tri).2 t
        = if t = tri.ttype then
            acc.2 t + (tacTriArea pd tri + tacTriArea pd tri + tacTriArea pd tri)
          else acc.2 t := by
      simp only [tacStep, guardAccum]
      by_cases ht : t = tri.ttype
      · simp [ht, ha, hb, hc]
        ring
      · simp [ht]
    rw [hstep]
    by_cases ht : tri.ttype = t
    · rw [if_pos ht.symm]
      simp only [List.filter_cons, ht, beq_self_eq_true, if_pos]
      simp only [List.map_cons, List.sum_cons]
      have h3 := three_tacTriArea pd tri
      linarith
    · rw [if_neg (fun hh => ht hh.symm)]
      have hpred : (tri.ttype == t) = false := by
        simp [ht]
      simp [List.filter_cons, hpred]

/-- C10: in the per-triangle variant, `computeForces` recomputes
`m_area` as a side effect.  On a single rank where every triangle vertex
is locally owned, the stored per-type area afterwards equals the sum of
the full areas of the triangles of that type (each triangle contributes
one third of its area per owned vertex, three thirds in total). -/
theorem tacAreaRecompute (pd : ParticleData) (st : TACState) (tris : List MeshTriangle)
    (cv : Bool) (t : ℕ)
    (hown : ∀ tri ∈ tris, pd.rtag tri.tagA < pd.numOwned
      ∧ pd.rtag tri.tagB < pd.numOwned ∧ pd.rtag tri.tagC < pd.numOwned) :
    (tacComputeForces pd st tris cv).2.area t
      = ((tris.filter (fun tr => tr.ttype == t)).map (tacFullArea pd)).sum := by
  have hfold := tacFold_area pd st cv t tris (zeroBuffers, fun _ => 0) hown
  simpa [tacComputeForces] using hfold

/-- Witness for C10 on a concrete one-triangle mesh. -/
theorem tacAreaRecomputeWitness :
    (∀ tri ∈ [triD], pdD.rtag tri.tagA < pdD.numOwned
      ∧ pdD.rtag tri.tagB < pdD.numOwned ∧ pdD.rtag tri.tagC < pdD.numOwned)
    ∧ (tacComputeForces pdD st2D [triD] false).2.area 0
      = (([triD].filter (fun tr => tr.ttype == 0)).map (tacFullArea pdD)).sum := by
  have hown : ∀ tri ∈ [triD], pdD.rtag tri.tagA < pdD.numOwned
      ∧ pdD.rtag tri.tagB < pdD.numOwned ∧ pdD.rtag tri.tagC < pdD.numOwned := by
    intro tri htri
    simp only [List.mem_singleton] at htri
    subst htri
    exact ⟨by decide, by decide, by decide⟩
  exact ⟨hown, tacAreaRecompute pdD st2D [triD] false 0 hown⟩

/-- C6: in the accelerator path, the error flag is read back only when
error checking is enabled; in that mode a runtime error is raised
exactly when bit 0 of the flag word is set, and with checking disabled
the call returns normally whatever the flag holds. -/
theorem gpuErrorCheckBehavior (flag : ℕ) :
    (gpuPostLaunchCheck true flag = Except.error MeshError.triangleOutOfBounds
      ↔ Nat.testBit flag 0)
    ∧ gpuPostLaunchCheck false flag = Except.ok ()
    ∧ ∀ flag2 : ℕ, gpuPostLaunchCheck false flag = gpuPostLaunchCheck false flag2 := by
  refine ⟨?_, rfl, fun flag2 => rfl⟩
  have hbit : Nat.testBit flag 0 ↔ flag &&& 1 ≠ 0 := by
    simp only [Nat.testBit_zero, Nat.and_one_is_mod, ne_eq, decide_eq_true_eq]
    omega
  unfold gpuPostLaunchCheck
  by_cases h : flag &&& 1 ≠ 0
  · simp [h, hbit]
  · simp [h, hbit]

/-- C7: for every recognized type (an allocated parameter slot) and all
parameter values, including non-positive ones, `setParams` of both
variants completes normally, stores the given `K` and `A0`, and logs a
warning exactly when `K ≤ 0` or `A0 ≤ 0`. -/
theorem setParamsStoresAndWarns (ign : Bool) (nTypes : ℕ) (K A0 : ℕ → ℝ) (type : ℕ)
    (Kv A0v : ℝ) (h : type < paramSlots ign nTypes) :
    ((acSetParams ign K A0 type Kv A0v).K type = Kv
      ∧ (acSetParams ign K A0 type Kv A0v).A0 type = A0v
      ∧ ((acSetParams ign K A0 type Kv A0v).warnings = [] ↔ 0 < Kv ∧ 0 < A0v))
    ∧ ((tacSetParams K A0 type Kv A0v).K type = Kv
      ∧ (tacSetParams K A0 type Kv A0v).A0 type = A0v
      ∧ ((tacSetParams K A0 type Kv A0v).warnings = [] ↔ 0 < Kv ∧ 0 < A0v)) := by
  have hcond : ign = false ∨ type = 0 := by
    cases ign
    · exact Or.inl rfl
    · right
      unfold paramSlots at h
      simp at h
      omega
  have hwarn0 : paramWarnings Kv A0v = [] ↔ ¬Kv ≤ 0 ∧ ¬A0v ≤ 0 := by
    by_cases h1 : Kv ≤ 0 <;> by_cases h2 : A0v ≤ 0 <;> simp [paramWarnings, h1, h2]
  have hwarn : paramWarnings Kv A0v = [] ↔ 0 < Kv ∧ 0 < A0v := by
    rw [hwarn0, not_le, not_le]
  constructor
  · unfold acSetParams
    rw [if_pos hcond]
    exact ⟨by simp, by simp, hwarn⟩
  · unfold tacSetParams
    exact ⟨by simp, by simp, hwarn⟩

/-- Witness for C7 with a non-positive stiffness. -/
theorem setParamsStoresAndWarnsWitness :
    (0 < paramSlots true 1)
    ∧ (((acSetParams true (fun _ => 0) (fun _ => 0) 0 (-1) 2).K 0 = -1
      ∧ (acSetParams true (fun _ => 0) (fun _ => 0) 0 (-1) 2).A0 0 = 2
      ∧ ((acSetParams true (fun _ => 0) (fun _ => 0) 0 (-1) 2).warnings = []
        ↔ 0 < (-1 : ℝ) ∧ 0 < (2 : ℝ)))
    ∧ ((tacSetParams (fun _ => 0) (fun _ => 0) 0 (-1) 2).K 0 = -1
      ∧ (tacSetParams (fun _ => 0) (fun _ => 0) 0 (-1) 2).A0 0 = 2
      ∧ ((tacSetParams (fun _ => 0) (fun _ => 0) 0 (-1) 2).warnings = []
        ↔ 0 < (-1 : ℝ) ∧ 0 < (2 : ℝ)))) :=
  ⟨by decide,
    setParamsStoresAndWarns true 1 (fun _ => 0) (fun _ => 0) 0 (-1) 2 (by decide)⟩

/-- C9: with `ignore_type` active, `setParams` for any nonzero type id
is a complete no-op: the stored parameters are unchanged and no warning
is emitted, whatever the values of `K` and `A0`. -/
theorem ignoreTypeSetParamsNoop (K A0 : ℕ → ℝ) (type : ℕ) (Kv A0v : ℝ) (h : type ≠ 0) :
    acSetParams true K A0 type Kv A0v = { K := K, A0 := A0, warnings := [] } := by
  unfold acSetParams
  rw [if_neg]
  simp [h]

/-- Witness for C9 at type 1 with non-positive parameters. -/
theorem ignoreTypeSetParamsNoopWitness :
    ((1 : ℕ) ≠ 0)
    ∧ acSetParams true (fun _ => (0 : ℝ)) (fun _ => 0) 1 (-5) (-5)
      = { K := fun _ => (0 : ℝ), A0 := fun _ => 0, warnings := [] } :=
  ⟨by decide, ignoreTypeSetParamsNoop (fun _ => 0) (fun _ => 0) 1 (-5) (-5) (by decide)⟩

end
